import Mathlib

/-!
Verification of `src/simulate.py` (active-learning simulator driver).

The file shallowly embeds the driver code of `simulate.py`:
`run_model` (batch-size computation and component construction),
`Config.update_metrics`, `Config.evaluate_configs`, and the per-config
dataset loop of `simulate`.  Numeric values (proportions, metrics) are
modelled as exact rationals; Python's `int()` conversion is modelled as
truncation toward zero.  Components whose code is not part of this
repository snapshot (the `ActiveLearner` loop, the Model/Selector/
Stopper/Evaluator classes) are modelled from the specification where a
claim needs their behaviour; each such definition carries a
`Modelled from the spec:` doc comment.
-/

namespace ALSim

/-- Python's `int()` applied to an exact numeric value: truncation toward
zero (`int(-0.5) = 0`, `int(0.9) = 0`). -/
def pyInt (q : ℚ) : ℤ := if q < 0 then ⌈q⌉ else ⌊q⌋

/-- `run_model`, src/simulate.py lines 166-168:
`N = len(data['train'])`; `batch_size = int(params['batch_proportion'] * N) + 1`.
Computed once per call to `run_model`, i.e. once per run. -/
def batchSize (batch_proportion : ℚ) (N : ℕ) : ℤ :=
  pyInt (batch_proportion * N) + 1

theorem pyInt_nonneg_eq_floor (q : ℚ) (h : 0 ≤ q) : pyInt q = ⌊q⌋ := by
  simp [pyInt, not_lt.mpr h]

theorem pyInt_neg_eq_ceil (q : ℚ) (h : q < 0) : pyInt q = ⌈q⌉ := by
  simp [pyInt, h]

theorem batchSize_nonpos_iff (bp : ℚ) (N : ℕ) :
    batchSize bp N ≤ 0 ↔ bp * N ≤ -1 := by
  unfold batchSize pyInt
  by_cases h : bp * (N : ℚ) < 0
  · simp only [if_pos h]
    constructor
    · intro hle
      have : ⌈bp * (N : ℚ)⌉ ≤ -1 := by omega
      have := Int.ceil_le.mp this
      simpa using this
    · intro hle
      have : bp * (N : ℚ) ≤ ((-1 : ℤ) : ℚ) := by simpa using hle
      have := Int.ceil_le.mpr this
      omega
  · simp only [if_neg h]
    push_neg at h
    have h0 : 0 ≤ ⌊bp * (N : ℚ)⌋ := Int.floor_nonneg.mpr h
    constructor
    · intro hle; omega
    · intro hle
      exfalso
      have : bp * (N : ℚ) ≤ -1 := hle
      linarith

/-- Error kind of spec §7 relevant to batch-size validation. -/
inductive RunError
  | invalidBatchSize
deriving DecidableEq

/-- Modelled from the spec: §7 lists `InvalidBatchSizeError`, raised
"when the resolved `batch_proportion` yields a non-positive batch size".
No code under src/ performs this check: `run_model`
(src/simulate.py lines 166-181) computes `batch_size` at line 168 and
hands it to the Selector factory and the ActiveLearner constructor,
whose implementations are not part of this snapshot.  The check is
modelled as a guard on the batch size the code actually computes. -/
def checkBatchSize (bp : ℚ) (N : ℕ) : Except RunError ℤ :=
  if batchSize bp N ≤ 0 then .error .invalidBatchSize else .ok (batchSize bp N)

theorem ceil_neg_half : (⌈(-(1 : ℚ)/2)⌉ : ℤ) = 0 := by
  rw [show (0 : ℤ) = -0 by ring, Int.ceil_eq_iff]
  norm_num

/-! ## Data model

The dataset is the ordered list of ground-truth binary relevance labels
(spec §3: an Item is an identifier plus a binary label; features are
opaque to the driver and dropped here). -/

abbrev Dataset := List Bool

/-- The evaluator object attached to a trained active learner: its
per-iteration `recall` and `work_save` histories (evaluator.py is
read by `Config.update_metrics` only through these two lists). -/
structure EvaluatorR where
  «recall» : List ℚ
  work_save : List ℚ
deriving DecidableEq

/-- A trained active-learner object as `Config.update_metrics` sees it:
only its `evaluator` attribute is consulted. -/
structure ALRes where
  evaluator : EvaluatorR
deriving DecidableEq

/-- One entry of `Config.metrics`: the dict
`{'name': ..., 'x': (label, value), 'y': (label, value)}` built at
src/simulate.py lines 133-134. -/
structure MetricEntry where
  name : String
  x : String × ℚ
  y : String × ℚ
deriving DecidableEq

/-- Python's builtin `min` on a list of numbers (left fold of binary min
over the list; raises on an empty list, which we map to the junk value 0 —
the driver only calls it on non-empty lists). -/
def pyMin : List ℚ → ℚ
  | [] => 0
  | a :: l => l.foldl min a

/-- src/simulate.py lines 121-124: `recalls` collects
`AL.evaluator.recall[-1]` for each trained active learner.  Python's
`[-1]` raises IndexError on an empty history; completed runs have at
least one snapshot, the junk value 0 stands for the error case. -/
def finalRecalls (active_learners : List ALRes) : List ℚ :=
  active_learners.map (fun AL => AL.evaluator.recall.getLastD 0)

/-- src/simulate.py lines 121-125: `work_saves` collects
`AL.evaluator.work_save[-1]` for each trained active learner. -/
def finalWorkSaves (active_learners : List ALRes) : List ℚ :=
  active_learners.map (fun AL => AL.evaluator.work_save.getLastD 0)

/-- The `Config` helper class (src/simulate.py lines 105-112): its
`metrics` list, initialised to `[]` by `__init__`. -/
structure Config where
  metrics : List MetricEntry
deriving DecidableEq

/-- `Config.update_metrics` (src/simulate.py lines 114-135): the two
metric entries it appends to `self.metrics` — min of the final recalls /
work-saves, then their means. -/
def Config.update_metrics (active_learners : List ALRes) : List MetricEntry :=
  let recalls := finalRecalls active_learners
  let work_saves := finalWorkSaves active_learners
  let min_recall := pyMin recalls
  let mean_recall := recalls.sum / (recalls.length : ℚ)
  let min_work_save := pyMin work_saves
  let mean_work_save := work_saves.sum / (work_saves.length : ℚ)
  [⟨"min metrics", ("work save", min_work_save), ("recall", min_recall)⟩,
   ⟨"mean metrics", ("work save", mean_work_save), ("recall", mean_recall)⟩]

theorem foldl_min_le_init (l : List ℚ) (a : ℚ) : l.foldl min a ≤ a := by
  induction l generalizing a with
  | nil => simp
  | cons b t ih =>
    simp only [List.foldl]
    exact le_trans (ih (min a b)) (min_le_left a b)

theorem foldl_min_mem (l : List ℚ) (a : ℚ) :
    l.foldl min a = a ∨ l.foldl min a ∈ l := by
  induction l generalizing a with
  | nil => simp
  | cons b t ih =>
    simp only [List.foldl]
    rcases ih (min a b) with h | h
    · rw [h]
      rcases le_total a b with hab | hab
      · left; exact min_eq_left hab
      · right; simp [min_eq_right hab]
    · right; simp [h]

theorem foldl_min_le_mem (l : List ℚ) : ∀ a x, x ∈ l → l.foldl min a ≤ x := by
  induction l with
  | nil => intro a x hx; cases hx
  | cons b t ih =>
    intro a x hx
    simp only [List.foldl]
    rcases List.mem_cons.mp hx with rfl | h
    · exact le_trans (foldl_min_le_init t (min a x)) (min_le_right a x)
    · exact ih (min a b) x h

theorem pyMin_mem (l : List ℚ) (h : l ≠ []) : pyMin l ∈ l := by
  cases l with
  | nil => simp at h
  | cons a t =>
    simp only [pyMin]
    rcases foldl_min_mem t a with h' | h'
    · simp [h']
    · simp [h']

theorem pyMin_le (l : List ℚ) (x : ℚ) (hx : x ∈ l) : pyMin l ≤ x := by
  cases l with
  | nil => cases hx
  | cons a t =>
    simp only [pyMin]
    rcases List.mem_cons.mp hx with rfl | h
    · exact foldl_min_le_init t x
    · exact foldl_min_le_mem t a x h

/-! ## run_model: component construction (src/simulate.py lines 166-187) -/

/-- The resolved parameter dictionary one configuration hands to
`run_model` (the keys `run_model` reads at src/simulate.py lines
168-182).  The `max_iter` field is modelled from the spec: §6 states the
configuration collaborator resolves a `max_iter` value for the core
(`create_simulator_params` is not under src/); `run_model` itself never
reads such a key — line 181 passes the literal `1000`. -/
structure Params where
  batch_proportion : ℚ
  confidence : ℚ
  model_params : List ℚ
  selector_params : List ℚ
  selector_verbose : Bool
  stopper_params : List ℚ
  stopper_verbose : Bool
  evaluator_verbose : Bool
  al_verbose : Bool
  max_iter : ℕ
deriving DecidableEq

/-- Arguments of the Model factory call, line 171:
`params['model'][0](*params['model'][1])`. -/
structure ModelArgs where
  params : List ℚ
deriving DecidableEq

/-- Arguments of the Selector factory call, line 173:
`params['selector'][0](batch_size, *params['selector'][1], verbose=...)`. -/
structure SelectorArgs where
  batch_size : ℤ
  params : List ℚ
  verbose : Bool
deriving DecidableEq

/-- Arguments of the Stopper factory call, line 175:
`params['stopper'][0](N, params['confidence'], *params['stopper'][1], verbose=...)`. -/
structure StopperArgs where
  N : ℕ
  confidence : ℚ
  params : List ℚ
  verbose : Bool
deriving DecidableEq

/-- Arguments of the Evaluator factory call, line 178:
`params['evaluator'][0](data['train'], verbose=...)`. -/
structure EvaluatorArgs where
  train : Dataset
  verbose : Bool
deriving DecidableEq

/-- Arguments of the ActiveLearner constructor call, lines 181-182:
`ActiveLearner(model_AL, selector, stopper, batch_size=batch_size,
max_iter=1000, evaluator=evaluator, verbose=...)`. -/
structure ALArgs where
  batch_size : ℤ
  max_iter : ℕ
  verbose : Bool
deriving DecidableEq

/-- `run_model` line 171: the Model is built from the configured model
parameters only. -/
def run_model_modelArgs (p : Params) : ModelArgs :=
  ⟨p.model_params⟩

/-- `run_model` line 173: the Selector receives the computed batch size,
its configured parameters and its verbosity flag
(`data` enters only through `N = len(data['train'])`, line 166). -/
def run_model_selectorArgs (data : Dataset) (p : Params) : SelectorArgs :=
  ⟨batchSize p.batch_proportion data.length, p.selector_params, p.selector_verbose⟩

/-- `run_model` line 175: the Stopper receives `N`, the confidence
target, its configured parameters and its verbosity flag. -/
def run_model_stopperArgs (data : Dataset) (p : Params) : StopperArgs :=
  ⟨data.length, p.confidence, p.stopper_params, p.stopper_verbose⟩

/-- `run_model` line 178: the Evaluator receives the ground-truth
training dataset itself and its verbosity flag. -/
def run_model_evaluatorArgs (data : Dataset) (p : Params) : EvaluatorArgs :=
  ⟨data, p.evaluator_verbose⟩

/-- `run_model` lines 181-182: the ActiveLearner receives the computed
batch size, the literal iteration ceiling `1000`, and the configured
verbosity flag. -/
def run_model_alArgs (data : Dataset) (p : Params) : ALArgs :=
  ⟨batchSize p.batch_proportion data.length, 1000, p.al_verbose⟩

/-- A concrete resolved configuration used to instantiate hypotheses at
concrete inputs: `batch_proportion = 1/20`, confidence `0.95`, resolved
`max_iter = 5`. -/
def exampleParams : Params :=
  ⟨1/20, 95/100, [], [], false, [], false, false, false, 5⟩

/-! ## Spec-modelled ActiveLearner loop

active_learner.py is not under src/; the definitions below model it from
the specification (§4.2, §4.5) so that run-level claims (the per-run
batch-size constant, trace determinism) can be stated. -/

/-- Modelled from the spec: the global NumPy pseudo-random generator
step.  §4.5 requires only that the generator is a deterministic
state-transition function once seeded; a linear congruential step stands
in for the implementation, which is outside this repository. -/
def lcg (s : ℕ) : ℕ := (s * 1103515245 + 12345) % 2147483648

/-- Modelled from the spec: `np.random.seed(s)` (src/simulate.py line 74
calls it with `s = 0`) resets the global generator state to a function
of `s` alone, discarding the previous state. -/
def npSeed (s : ℕ) : ℕ := s % 2147483648

/-- Number of relevant items among a list of labels. -/
def countRel (l : List Bool) : ℕ := l.countP (fun b => b)

/-- One per-iteration record of a run trace: the batch size requested
from the Selector, the batch's labels, and the Evaluator's
MetricsSnapshot entries (spec §3: `recall`, `work_save`). -/
structure Snapshot where
  batch_size_used : ℕ
  batch : List Bool
  «recall» : ℚ
  work_save : ℚ
deriving DecidableEq

/-- Modelled from the spec: one Selecting step (§4.2) — the Selector
returns `min(batch_size, |unlabeled|)` items from the unlabeled pool,
starting at a pseudo-random position; returns the batch and the
remaining pool. -/
def selectBatch (rng bs : ℕ) (unlabeled : List Bool) : List Bool × List Bool :=
  let n := unlabeled.length
  let r := if n = 0 then 0 else rng % n
  let rot := unlabeled.drop r ++ unlabeled.take r
  (rot.take (min bs n), rot.drop (min bs n))

/-- Modelled from the spec: the `ActiveLearner.train` loop (§4.5):
Selecting → Labeling → Training → Evaluating → Checking, re-entered
while the Stopper continues, the remaining iteration budget (`fuel`,
initially `max_iter`) is positive and the pool is non-empty.
`stop found screened N` is the Stopper transition of §4.3 — the exact
statistical rule is left open by §9 and is an explicit parameter —
consuming only cumulative counts and `N`.  `totalRel` is the
ground-truth relevant count, consumed only by the Evaluator's recall.
Returns the snapshot trace and the final generator state. -/
def trainLoop (stop : ℕ → ℕ → ℕ → Bool) (N totalRel bs : ℕ) :
    ℕ → ℕ → List Bool → List Bool → List Snapshot × ℕ
  | 0, rng, _, _ => ([], rng)
  | fuel + 1, rng, labeled, unlabeled =>
    if unlabeled.length = 0 then ([], rng)
    else
      let br := selectBatch rng bs unlabeled
      let labeled' := labeled ++ br.1
      let found := countRel labeled'
      let snap : Snapshot :=
        ⟨bs, br.1, (found : ℚ) / (totalRel : ℚ), 1 - (labeled'.length : ℚ) / (N : ℚ)⟩
      let rng' := lcg rng
      if stop found labeled'.length N then ([snap], rng')
      else
        let next := trainLoop stop N totalRel bs fuel rng' labeled' br.2
        (snap :: next.1, next.2)

/-- Modelled from the spec: `active_learner.train(data['train'])`
(src/simulate.py line 185) — a full run over `dataset` with the batch
size and `max_iter` the ActiveLearner was constructed with and the
current global generator state.  A negative computed batch size is
clamped to 0 when handed to the list-taking Selector model. -/
def ALtrain (stop : ℕ → ℕ → ℕ → Bool) (bs maxIter rng : ℕ)
    (dataset : List Bool) : List Snapshot × ℕ :=
  trainLoop stop dataset.length (countRel dataset) bs maxIter rng [] dataset

theorem trainLoop_batch_size_used (stop : ℕ → ℕ → ℕ → Bool)
    (N totalRel bs : ℕ) : ∀ (fuel rng : ℕ) (labeled unlabeled : List Bool),
    ∀ s ∈ (trainLoop stop N totalRel bs fuel rng labeled unlabeled).1,
      s.batch_size_used = bs := by
  intro fuel
  induction fuel with
  | zero => intro rng labeled unlabeled s hs; simp [trainLoop] at hs
  | succ m ih =>
    intro rng labeled unlabeled s hs
    simp only [trainLoop] at hs
    by_cases h0 : unlabeled.length = 0
    · simp [h0] at hs
    · simp only [if_neg h0] at hs
      by_cases hstop :
          stop (countRel (labeled ++ (selectBatch rng bs unlabeled).1))
            (labeled ++ (selectBatch rng bs unlabeled).1).length N
      · simp only [if_pos hstop, List.mem_singleton] at hs
        subst hs; rfl
      · simp only [if_neg hstop, List.mem_cons] at hs
        rcases hs with rfl | hs
        · rfl
        · exact ih _ _ _ s hs

/-- src/simulate.py lines 77-81 with the global generator threaded
through the runs: the loop runs `run_model` (whose training call is the
spec-modelled `ALtrain`) for each dataset in order, collecting each
run's trace. -/
def configRunsGo (stop : ℕ → ℕ → ℕ → Bool) (bp : ℚ) :
    ℕ → List (List Bool) → List (List Snapshot)
  | _, [] => []
  | rng, d :: ds =>
    let r := ALtrain stop (batchSize bp d.length).toNat 1000 rng d
    r.1 :: configRunsGo stop bp r.2 ds

/-- src/simulate.py lines 73-81, one configuration's training section:
the process arrives with some ambient global generator state `g`;
line 74 (`np.random.seed(0)`) replaces it with the fixed seed state, and
lines 77-81 then run each dataset in order. -/
def configRuns (stop : ℕ → ℕ → ℕ → Bool) (_g : ℕ) (bp : ℚ)
    (datasets : List (List Bool)) : List (List Snapshot) :=
  let rng := npSeed 0
  configRunsGo stop bp rng datasets

/-! ## Claim theorems -/

/-- C1 counterexample: the claim states `batch_size = floor(batch_proportion
· N) + 1` for every run, but line 168 uses Python `int()`, which truncates
toward zero.  At `batch_proportion = -1/200`, `N = 100` the product is
`-1/2`: the code computes `int(-1/2) + 1 = 1` while the claimed formula
gives `⌊-1/2⌋ + 1 = 0`. -/
theorem batch_size_floor_cex :
    batchSize (-1/200) 100 ≠ ⌊((-1/200 : ℚ)) * ((100 : ℕ) : ℚ)⌋ + 1 := by
  have h1 : batchSize (-1/200) 100 = 1 := by
    unfold batchSize pyInt
    rw [show ((-1/200 : ℚ) * ((100 : ℕ) : ℚ)) = -(1 : ℚ)/2 by norm_num]
    rw [if_pos (by norm_num), ceil_neg_half]
    norm_num
  rw [h1]
  norm_num

/-- C1 (amended): the batch size is computed exactly once per run from the
full dataset size as `batch_size = int(batch_proportion · N) + 1` with
`int` truncating toward zero, which agrees with
`⌊batch_proportion · N⌋ + 1` whenever `batch_proportion ≥ 0`; in
particular `N = 100`, `batch_proportion = 0.05` gives `6`; and every
iteration of a run's trace uses that same per-run constant, never a
re-derived value. -/
theorem batch_size_policy :
    (∀ (bp : ℚ) (N : ℕ), 0 ≤ bp → batchSize bp N = ⌊bp * (N : ℚ)⌋ + 1) ∧
    batchSize (5/100) 100 = 6 ∧
    (∀ (stop : ℕ → ℕ → ℕ → Bool) (rng : ℕ) (bp : ℚ) (ds : List Bool),
      ∀ s ∈ (ALtrain stop (batchSize bp ds.length).toNat 1000 rng ds).1,
        s.batch_size_used = (batchSize bp ds.length).toNat) := by
  refine ⟨?_, ?_, ?_⟩
  · intro bp N h
    unfold batchSize
    rw [pyInt_nonneg_eq_floor _ (mul_nonneg h (by positivity))]
  · norm_num [batchSize, pyInt]
  · intro stop rng bp ds s hs
    exact trainLoop_batch_size_used stop ds.length (countRel ds) _ 1000 rng [] ds s hs

theorem batch_size_policy_witness :
    0 ≤ (5/100 : ℚ) ∧ batchSize (5/100) 100 = ⌊(5/100 : ℚ) * ((100 : ℕ) : ℚ)⌋ + 1 :=
  ⟨by norm_num, batch_size_policy.1 (5/100) 100 (by norm_num)⟩

/-- C3 counterexample: at `batch_proportion = -1/300`, `N = 150` the
claim's trigger `⌊batch_proportion · N⌋ + 1 ≤ 0` holds, yet the batch
size the code computes is `int(-1/2) + 1 = 1`, so the (spec-modelled)
validation does not raise `InvalidBatchSizeError`. -/
theorem invalid_batch_size_cex :
    ⌊((-1/300 : ℚ)) * ((150 : ℕ) : ℚ)⌋ + 1 ≤ 0 ∧
    checkBatchSize (-1/300) 150 = .ok 1 := by
  constructor
  · norm_num
  · have h1 : batchSize (-1/300) 150 = 1 := by
      unfold batchSize pyInt
      rw [show ((-1/300 : ℚ) * ((150 : ℕ) : ℚ)) = -(1 : ℚ)/2 by norm_num]
      rw [if_pos (by norm_num), ceil_neg_half]
      norm_num
    unfold checkBatchSize
    rw [h1]
    norm_num

/-- C3 (amended): `InvalidBatchSizeError` is raised exactly when the batch
size the code computes — `int(batch_proportion · N) + 1`, truncating
toward zero — is non-positive, equivalently when
`batch_proportion · N ≤ -1`; for `-1 < batch_proportion · N < 0` the
computed batch size is `1` and no error is raised, although the claim's
floor-based trigger fires there. -/
theorem invalid_batch_size_iff (bp : ℚ) (N : ℕ) :
    (checkBatchSize bp N = .error .invalidBatchSize ↔ batchSize bp N ≤ 0) ∧
    (batchSize bp N ≤ 0 ↔ bp * N ≤ -1) := by
  refine ⟨?_, batchSize_nonpos_iff bp N⟩
  unfold checkBatchSize
  by_cases h : batchSize bp N ≤ 0
  · simp [h]
  · simp [h]

/-- C5: determinism of the per-configuration driver section — whatever
global generator states two executions start from, line 74
(`np.random.seed(0)`) fixes the seed, so both executions produce the
same full iteration trace (same batches and metric snapshots) over the
same datasets and parameters. -/
theorem configRuns_deterministic (stop : ℕ → ℕ → ℕ → Bool) (g g' : ℕ)
    (bp : ℚ) (datasets : List (List Bool)) :
    configRuns stop g bp datasets = configRuns stop g' bp datasets := rfl

/-- C2: for every non-empty list of completed runs,
`Config.update_metrics` records exactly two entries, "min metrics" then
"mean metrics"; the "min metrics" entry's recall (resp. work-save) value
is the least element of the per-run final recall (resp. work-save)
values, and the "mean metrics" entry's values are their arithmetic
means (sum divided by count). -/
theorem update_metrics_min_mean (active_learners : List ALRes)
    (h : active_learners ≠ []) :
    ∃ e₁ e₂ : MetricEntry,
      Config.update_metrics active_learners = [e₁, e₂] ∧
      e₁.name = "min metrics" ∧ e₂.name = "mean metrics" ∧
      e₁.x.1 = "work save" ∧ e₁.y.1 = "recall" ∧
      (e₁.y.2 ∈ finalRecalls active_learners ∧
        ∀ r ∈ finalRecalls active_learners, e₁.y.2 ≤ r) ∧
      (e₁.x.2 ∈ finalWorkSaves active_learners ∧
        ∀ w ∈ finalWorkSaves active_learners, e₁.x.2 ≤ w) ∧
      e₂.y.2 = (finalRecalls active_learners).sum /
        ((finalRecalls active_learners).length : ℚ) ∧
      e₂.x.2 = (finalWorkSaves active_learners).sum /
        ((finalWorkSaves active_learners).length : ℚ) := by
  have hr : finalRecalls active_learners ≠ [] := by
    simpa [finalRecalls] using h
  have hw : finalWorkSaves active_learners ≠ [] := by
    simpa [finalWorkSaves] using h
  refine ⟨_, _, rfl, rfl, rfl, rfl, rfl, ⟨?_, ?_⟩, ⟨?_, ?_⟩, rfl, rfl⟩
  · exact pyMin_mem _ hr
  · intro r hrr; exact pyMin_le _ r hrr
  · exact pyMin_mem _ hw
  · intro w hww; exact pyMin_le _ w hww

theorem update_metrics_min_mean_witness :
    ([⟨⟨[1/2], [1/4]⟩⟩, ⟨⟨[1], [0]⟩⟩] : List ALRes) ≠ [] ∧
    (∃ e₁ e₂ : MetricEntry,
      Config.update_metrics [⟨⟨[1/2], [1/4]⟩⟩, ⟨⟨[1], [0]⟩⟩] = [e₁, e₂] ∧
      e₁.name = "min metrics" ∧ e₂.name = "mean metrics" ∧
      e₁.x.1 = "work save" ∧ e₁.y.1 = "recall" ∧
      (e₁.y.2 ∈ finalRecalls [⟨⟨[1/2], [1/4]⟩⟩, ⟨⟨[1], [0]⟩⟩] ∧
        ∀ r ∈ finalRecalls [⟨⟨[1/2], [1/4]⟩⟩, ⟨⟨[1], [0]⟩⟩], e₁.y.2 ≤ r) ∧
      (e₁.x.2 ∈ finalWorkSaves [⟨⟨[1/2], [1/4]⟩⟩, ⟨⟨[1], [0]⟩⟩] ∧
        ∀ w ∈ finalWorkSaves [⟨⟨[1/2], [1/4]⟩⟩, ⟨⟨[1], [0]⟩⟩], e₁.x.2 ≤ w) ∧
      e₂.y.2 = (finalRecalls [⟨⟨[1/2], [1/4]⟩⟩, ⟨⟨[1], [0]⟩⟩]).sum /
        ((finalRecalls [⟨⟨[1/2], [1/4]⟩⟩, ⟨⟨[1], [0]⟩⟩]).length : ℚ) ∧
      e₂.x.2 = (finalWorkSaves [⟨⟨[1/2], [1/4]⟩⟩, ⟨⟨[1], [0]⟩⟩]).sum /
        ((finalWorkSaves [⟨⟨[1/2], [1/4]⟩⟩, ⟨⟨[1], [0]⟩⟩]).length : ℚ)) :=
  ⟨by decide, update_metrics_min_mean _ (by decide)⟩

/-- C6: interface separation — the Stopper's constructor arguments
(line 175) are a function of the dataset size `N`, the confidence
target and the configured stopper options alone: two datasets of equal
size yield identical Stopper arguments whatever their labels or
relevant counts, and the arguments consist exactly of `N`, the
confidence target and the configured options; the Evaluator alone
(line 178) receives the ground-truth dataset itself. -/
theorem stopper_evaluator_separation :
    (∀ (d₁ d₂ : Dataset) (p : Params), d₁.length = d₂.length →
      run_model_stopperArgs d₁ p = run_model_stopperArgs d₂ p) ∧
    (∀ (d : Dataset) (p : Params),
      run_model_stopperArgs d p =
        ⟨d.length, p.confidence, p.stopper_params, p.stopper_verbose⟩) ∧
    (∀ (d : Dataset) (p : Params),
      (run_model_evaluatorArgs d p).train = d) := by
  refine ⟨?_, fun d p => rfl, fun d p => rfl⟩
  intro d₁ d₂ p hlen
  unfold run_model_stopperArgs
  rw [hlen]

theorem stopper_evaluator_separation_witness :
    ([true, true] : Dataset).length = ([false, true] : Dataset).length ∧
    run_model_stopperArgs [true, true] exampleParams =
      run_model_stopperArgs [false, true] exampleParams :=
  ⟨by decide,
   stopper_evaluator_separation.1 [true, true] [false, true] exampleParams (by decide)⟩

/-- C7 counterexample: `run_model` does not construct the ActiveLearner
with the configuration's resolved `max_iter` — line 181 passes the
literal `1000`.  With a configuration whose resolved `max_iter` is `5`,
the constructed ActiveLearner's ceiling is `1000 ≠ 5`. -/
theorem run_model_max_iter_cex :
    (run_model_alArgs [true] exampleParams).max_iter ≠ exampleParams.max_iter := by
  decide

/-- C7 (amended): for every configuration and dataset, `run_model`
constructs the ActiveLearner with the hardcoded iteration ceiling
`1000`, ignoring the configuration's resolved `max_iter` value. -/
theorem run_model_max_iter_hardcoded (d : Dataset) (p : Params) :
    (run_model_alArgs d p).max_iter = 1000 := rfl

/-! ## The per-dataset loop and error propagation
(src/simulate.py lines 77-81) -/

/-- spec §7: `TrainingError` — the Model cannot fit the current labeled
set.  It is raised inside `active_learner.train` (line 185; code not
under src/) and, per the spec, "surfaces immediately and aborts the
run". -/
inductive TrainingError
  | trainingError
deriving DecidableEq

/-- Whether a computation completed without raising. -/
def exceptIsOk {α : Type} : Except TrainingError α → Bool
  | .ok _ => true
  | .error _ => false

/-- src/simulate.py lines 77-81: the per-dataset loop
`for i, dataset in enumerate(datasets): active_learner = run_model(...);
active_learners.append(...)` contains no try/except, so an exception
raised by `run_model` (abstracted by `runOne`) propagates and aborts
the loop; on success the `active_learners` list is collected. -/
def datasetLoop (runOne : List Bool → Except TrainingError ALRes) :
    List (List Bool) → Except TrainingError (List ALRes)
  | [] => .ok []
  | d :: ds =>
    match runOne d with
    | .error e => .error e
    | .ok a =>
      match datasetLoop runOne ds with
      | .error e => .error e
      | .ok l => .ok (a :: l)

/-- The datasets for which the loop at lines 77-81 actually invokes
`run_model` before it terminates — normally, or early through a
propagating exception. -/
def executedDatasets (runOne : List Bool → Except TrainingError ALRes) :
    List (List Bool) → List (List Bool)
  | [] => []
  | d :: ds =>
    match runOne d with
    | .error _ => [d]
    | .ok _ => d :: executedDatasets runOne ds

/-- A `run_model` behaviour that raises `TrainingError` on the dataset
`[true]` and succeeds on every other dataset. -/
def failOnSingleTrue (d : List Bool) : Except TrainingError ALRes :=
  if d = [true] then .error .trainingError else .ok ⟨⟨[1], [0]⟩⟩

/-- C4 counterexample: with two datasets under one configuration where
`run_model` raises `TrainingError` on the first, the loop at lines 77-81
(no try/except) propagates the exception: the sibling dataset
`[false, false]` is never executed, contradicting the claim that
sibling runs still execute. -/
theorem trainingError_aborts_siblings_cex :
    executedDatasets failOnSingleTrue [[true], [false, false]] = [[true]] ∧
    [false, false] ∉ executedDatasets failOnSingleTrue [[true], [false, false]] ∧
    exceptIsOk (datasetLoop failOnSingleTrue [[true], [false, false]]) = false := by
  refine ⟨rfl, ?_, rfl⟩
  intro hmem
  rw [show executedDatasets failOnSingleTrue [[true], [false, false]] = [[true]] from rfl] at hmem
  simp at hmem

/-- C4 (amended): errors are not isolated to a single run — when
`run_model` raises a `TrainingError` for one dataset, the loop at
lines 77-81 propagates it: exactly the preceding (successful) datasets
and the failing one are executed, the remaining sibling datasets are
never run, and the whole per-configuration training section aborts with
the error. -/
theorem trainingError_aborts_siblings
    (runOne : List Bool → Except TrainingError ALRes)
    (pre post : List (List Bool)) (d : List Bool) (e : TrainingError)
    (hok : ∀ x ∈ pre, exceptIsOk (runOne x) = true)
    (herr : runOne d = .error e) :
    executedDatasets runOne (pre ++ d :: post) = pre ++ [d] ∧
    datasetLoop runOne (pre ++ d :: post) = .error e := by
  induction pre with
  | nil => simp [executedDatasets, datasetLoop, herr]
  | cons a t ih =>
    have ha : exceptIsOk (runOne a) = true := hok a (by simp)
    obtain ⟨v, hv⟩ : ∃ v, runOne a = .ok v := by
      cases hcase : runOne a with
      | ok w => exact ⟨w, rfl⟩
      | error w => rw [hcase] at ha; simp [exceptIsOk] at ha
    have ht := ih (fun x hx => hok x (by simp [hx]))
    constructor
    · simp only [List.cons_append, executedDatasets, hv, List.append_eq]
      rw [ht.1]
    · simp only [List.cons_append, datasetLoop, hv, List.append_eq]
      rw [ht.2]

theorem trainingError_aborts_siblings_witness :
    (∀ x ∈ [[false]], exceptIsOk (failOnSingleTrue x) = true) ∧
    failOnSingleTrue [true] = .error .trainingError ∧
    (executedDatasets failOnSingleTrue ([[false]] ++ [true] :: [[true, true]]) =
      [[false]] ++ [[true]] ∧
     datasetLoop failOnSingleTrue ([[false]] ++ [true] :: [[true, true]]) =
      .error .trainingError) :=
  ⟨by decide, rfl,
   trainingError_aborts_siblings failOnSingleTrue [[false]] [[true, true]]
     [true] .trainingError (by decide) rfl⟩

/-! ## Instance freshness across runs (src/simulate.py lines 77-81,
171-187) -/

/-- Python object identity for the four factory calls in `run_model`
(lines 171-178): each call `params['model'][0](...)`, `...selector...`,
`...stopper...`, `...evaluator...` allocates a fresh object.  Allocation
is modelled by a counter: a `run_model` call entered at counter `c`
creates the Model, Selector, Stopper and Evaluator identities
`c, c+1, c+2, c+3` and leaves the counter at `c+4`. -/
structure Allocated where
  modelId : ℕ
  selectorId : ℕ
  stopperId : ℕ
  evaluatorId : ℕ
deriving DecidableEq

/-- The four factory calls of one `run_model` call (lines 171-178). -/
def run_model_alloc (c : ℕ) : Allocated × ℕ :=
  (⟨c, c + 1, c + 2, c + 3⟩, c + 4)

/-- The component identities owned by one run. -/
def Allocated.ids (a : Allocated) : List ℕ :=
  [a.modelId, a.selectorId, a.stopperId, a.evaluatorId]

/-- The loop at lines 77-81 calls `run_model` once per dataset; the
component instances allocated for each of the `n` runs, in order. -/
def allocRuns : ℕ → ℕ → List Allocated
  | _, 0 => []
  | c, n + 1 => (run_model_alloc c).1 :: allocRuns (run_model_alloc c).2 n

theorem allocRuns_getD (n : ℕ) : ∀ c i : ℕ, i < n →
    (allocRuns c n).getD i ⟨0, 0, 0, 0⟩ =
      ⟨c + 4 * i, c + 4 * i + 1, c + 4 * i + 2, c + 4 * i + 3⟩ := by
  induction n with
  | zero => intro c i h; omega
  | succ m ih =>
    intro c i h
    cases i with
    | zero => simp [allocRuns, run_model_alloc]
    | succ j =>
      have hj := ih (c + 4) j (by omega)
      simp only [allocRuns, run_model_alloc, List.getD_cons_succ]
      rw [hj]
      simp only [Allocated.mk.injEq]
      exact ⟨by omega, by omega, by omega, by omega⟩

/-- C8: no component instance is shared across runs — for any two
distinct runs of the `n` runs a configuration executes, the Model,
Selector, Stopper and Evaluator instances created by `run_model` for
one run are disjoint from those created for the other. -/
theorem run_instances_disjoint (n i j : ℕ) (hi : i < n) (hj : j < n)
    (hij : i ≠ j) :
    ∀ x ∈ ((allocRuns 0 n).getD i ⟨0, 0, 0, 0⟩).ids,
      x ∉ ((allocRuns 0 n).getD j ⟨0, 0, 0, 0⟩).ids := by
  rw [allocRuns_getD n 0 i hi, allocRuns_getD n 0 j hj]
  intro x hx hmem
  simp only [Allocated.ids, List.mem_cons, List.not_mem_nil, or_false] at hx hmem
  omega

theorem run_instances_disjoint_witness :
    (0 : ℕ) < 2 ∧ (1 : ℕ) < 2 ∧ (0 : ℕ) ≠ 1 ∧
    (∀ x ∈ ((allocRuns 0 2).getD 0 ⟨0, 0, 0, 0⟩).ids,
      x ∉ ((allocRuns 0 2).getD 1 ⟨0, 0, 0, 0⟩).ids) :=
  ⟨by decide, by decide, by decide,
   run_instances_disjoint 2 0 1 (by decide) (by decide) (by decide)⟩

/-! ## The per-configuration pipeline and config comparison
(src/simulate.py lines 43-102, 137-155) -/

/-- src/simulate.py lines 66-94 for one configuration: `get_datasets`
(code not under src/) returned `datasets`; if `len(datasets) == 0` the
configuration is skipped (`continue`, lines 67-68) and no `Config` is
created; otherwise every dataset is run (lines 77-81; `runOne`
abstracts a completing `run_model`), a `Config` is created and
`update_metrics` is called on it exactly once (lines 92-93). -/
def processConfig (runOne : List Bool → ALRes) (datasets : List (List Bool)) :
    Option Config :=
  if datasets.length = 0 then none
  else some ⟨Config.update_metrics (datasets.map runOne)⟩

/-- src/simulate.py lines 43-94: the `configs` list accumulated over the
configurations, each with the datasets its `get_datasets` call
returned. -/
def simulateConfigs (runOne : List Bool → ALRes)
    (paramDatasets : List (List (List Bool))) : List Config :=
  paramDatasets.filterMap (processConfig runOne)

/-- One comparison plot built by `Config.evaluate_configs`
(src/simulate.py lines 145-154): the metric name, the axis labels, and
the per-config values collected for the two axes. -/
structure PlotMetric where
  name : String
  xlabel : String
  xs : List ℚ
  ylabel : String
  ys : List ℚ
deriving DecidableEq

/-- `Config.evaluate_configs` (src/simulate.py lines 137-155): for each
`(i, metric)` in `enumerate(configs[0].metrics)` collect every config's
`metrics[i]` values.  The indexed accesses `configs[0]` and
`config.metrics[i]` — which raise IndexError when out of bounds — are
modelled by `getD` with junk defaults. -/
def Config.evaluate_configs (configs : List Config) : List PlotMetric :=
  ((configs.getD 0 ⟨[]⟩).metrics.enum).map (fun p =>
    ⟨p.2.name, p.2.x.1,
     configs.map (fun c => (c.metrics.getD p.1 ⟨"", ("", 0), ("", 0)⟩).x.2),
     p.2.y.1,
     configs.map (fun c => (c.metrics.getD p.1 ⟨"", ("", 0), ("", 0)⟩).y.2)⟩)

/-- src/simulate.py lines 96-98: `Config.evaluate_configs(configs)` is
invoked only under the guard `if len(configs) > 0`. -/
def simulateCompare (runOne : List Bool → ALRes)
    (paramDatasets : List (List (List Bool))) : Option (List PlotMetric) :=
  let configs := simulateConfigs runOne paramDatasets
  if 0 < configs.length then some (Config.evaluate_configs configs) else none

/-- C9: a configuration whose `get_datasets` result is empty is skipped
— `processConfig` yields no `Config` for `[]` — and whenever a `Config`
is produced, the `active_learners` list handed to `update_metrics` came
from a non-empty dataset list, so the `recalls` and `work_saves` lists
divided by in the mean computations have positive length (no division
by zero). -/
theorem processConfig_skips_empty (runOne : List Bool → ALRes)
    (datasets : List (List Bool)) (cfg : Config)
    (h : processConfig runOne datasets = some cfg) :
    processConfig runOne [] = none ∧
    datasets ≠ [] ∧
    cfg = ⟨Config.update_metrics (datasets.map runOne)⟩ ∧
    0 < (finalRecalls (datasets.map runOne)).length ∧
    0 < (finalWorkSaves (datasets.map runOne)).length := by
  unfold processConfig at h
  by_cases hd : datasets.length = 0
  · rw [if_pos hd] at h
    cases h
  · rw [if_neg hd] at h
    injection h with h2
    refine ⟨by simp [processConfig], ?_, h2.symm, ?_, ?_⟩
    · intro hnil
      exact hd (by simp [hnil])
    · simp only [finalRecalls, List.length_map]
      omega
    · simp only [finalWorkSaves, List.length_map]
      omega

/-- A `run_model` behaviour returning a fixed completed run (final
recall 1, final work-save 0). -/
def constRunner : List Bool → ALRes := fun _ => ⟨⟨[1], [0]⟩⟩

theorem processConfig_skips_empty_witness :
    processConfig constRunner [[true]] =
      some ⟨[⟨"min metrics", ("work save", 0), ("recall", 1)⟩,
             ⟨"mean metrics", ("work save", 0), ("recall", 1)⟩]⟩ ∧
    (processConfig constRunner [] = none ∧
     ([[true]] : List (List Bool)) ≠ [] ∧
     (⟨[⟨"min metrics", ("work save", 0), ("recall", 1)⟩,
        ⟨"mean metrics", ("work save", 0), ("recall", 1)⟩]⟩ : Config) =
       ⟨Config.update_metrics ([[true]].map constRunner)⟩ ∧
     0 < (finalRecalls ([[true]].map constRunner)).length ∧
     0 < (finalWorkSaves ([[true]].map constRunner)).length) :=
  ⟨by norm_num [processConfig, Config.update_metrics, finalRecalls,
     finalWorkSaves, constRunner, pyMin],
   processConfig_skips_empty constRunner [[true]]
     ⟨[⟨"min metrics", ("work save", 0), ("recall", 1)⟩,
       ⟨"mean metrics", ("work save", 0), ("recall", 1)⟩]⟩
     (by norm_num [processConfig, Config.update_metrics, finalRecalls,
        finalWorkSaves, constRunner, pyMin])⟩

/-- C10: whenever the driver reaches `Config.evaluate_configs` (i.e.
the guard `len(configs) > 0` admitted it), the configs list is
non-empty, every `Config` in it carries exactly the two metric entries
`"min metrics"` then `"mean metrics"` appended by its single
`update_metrics` call, and hence every access `config.metrics[i]` for
`i` ranging over `enumerate(configs[0].metrics)` is in bounds. -/
theorem simulateCompare_inbounds (runOne : List Bool → ALRes)
    (paramDatasets : List (List (List Bool))) (out : List PlotMetric)
    (h : simulateCompare runOne paramDatasets = some out) :
    simulateConfigs runOne paramDatasets ≠ [] ∧
    (∀ cfg ∈ simulateConfigs runOne paramDatasets,
      cfg.metrics.map MetricEntry.name = ["min metrics", "mean metrics"]) ∧
    (∀ cfg ∈ simulateConfigs runOne paramDatasets,
      ∀ i < ((simulateConfigs runOne paramDatasets).getD 0 ⟨[]⟩).metrics.length,
        i < cfg.metrics.length) := by
  have hnames : ∀ cfg ∈ simulateConfigs runOne paramDatasets,
      cfg.metrics.map MetricEntry.name = ["min metrics", "mean metrics"] := by
    intro cfg hc
    rcases List.mem_filterMap.mp hc with ⟨ds, _, hds⟩
    unfold processConfig at hds
    by_cases hd : ds.length = 0
    · rw [if_pos hd] at hds
      cases hds
    · rw [if_neg hd] at hds
      injection hds with h2
      rw [← h2]
      rfl
  have hne : simulateConfigs runOne paramDatasets ≠ [] := by
    unfold simulateCompare at h
    by_cases hl : 0 < (simulateConfigs runOne paramDatasets).length
    · intro hnil
      rw [hnil] at hl
      simp at hl
    · rw [if_neg hl] at h
      cases h
  have hlen2 : ∀ cfg ∈ simulateConfigs runOne paramDatasets,
      cfg.metrics.length = 2 := by
    intro cfg hc
    have := congrArg List.length (hnames cfg hc)
    simpa using this
  refine ⟨hne, hnames, ?_⟩
  intro cfg hc i hi
  obtain ⟨c0, t0, hct⟩ :
      ∃ c0 t0, simulateConfigs runOne paramDatasets = c0 :: t0 := by
    cases hcase : simulateConfigs runOne paramDatasets with
    | nil => exact absurd hcase hne
    | cons a b => exact ⟨a, b, rfl⟩
  rw [hct] at hi
  have hc0 : c0 ∈ simulateConfigs runOne paramDatasets := by
    rw [hct]
    exact List.mem_cons_self c0 t0
  rw [List.getD_cons_zero] at hi
  rw [hlen2 cfg hc]
  rw [hlen2 c0 hc0] at hi
  exact hi

theorem simulateCompare_inbounds_witness :
    simulateCompare constRunner [[[true]]] =
      some [⟨"min metrics", "work save", [0], "recall", [1]⟩,
            ⟨"mean metrics", "work save", [0], "recall", [1]⟩] ∧
    (simulateConfigs constRunner [[[true]]] ≠ [] ∧
     (∀ cfg ∈ simulateConfigs constRunner [[[true]]],
       cfg.metrics.map MetricEntry.name = ["min metrics", "mean metrics"]) ∧
     (∀ cfg ∈ simulateConfigs constRunner [[[true]]],
       ∀ i < ((simulateConfigs constRunner [[[true]]]).getD 0 ⟨[]⟩).metrics.length,
         i < cfg.metrics.length)) :=
  ⟨by norm_num [simulateCompare, simulateConfigs, Config.evaluate_configs,
     List.filterMap, processConfig, Config.update_metrics, finalRecalls,
     finalWorkSaves, constRunner, pyMin, List.enum, List.enumFrom],
   simulateCompare_inbounds constRunner [[[true]]]
     [⟨"min metrics", "work save", [0], "recall", [1]⟩,
      ⟨"mean metrics", "work save", [0], "recall", [1]⟩]
     (by norm_num [simulateCompare, simulateConfigs, Config.evaluate_configs,
        List.filterMap, processConfig, Config.update_metrics, finalRecalls,
        finalWorkSaves, constRunner, pyMin, List.enum, List.enumFrom])⟩

end ALSim
